import Mathlib

/-!
Shallow embedding of the core decision procedures of the Metadata-viewer
backend (`src/backend/main.py`): the period-timing qualifier
(`validate_video_timing`) and the engagement score fusion / timeline
(`build_engagement_from_upload`, `_build_engagement_timeline`,
`_clamp_score`), together with the report-lifecycle function
(`ensure_local_engagement_for_upload`).

Modelling conventions:
* Python `float` arithmetic is modelled by exact rational arithmetic (`ℚ`);
  all concrete values appearing in the claims are exactly representable.
* `datetime.time` values are modelled as seconds-in-day (`Nat`); Python
  compares `time` objects lexicographically by (hour, minute, second),
  which coincides with comparison of seconds-in-day.
* The strptime chain that turns the raw `video_start_time` string into a
  `datetime` is abstracted by its outcome (`VideoStartInput`): the string
  is empty/None, fails all four formats, or parses to a time-of-day.
  Likewise a `PeriodTiming` row carries the outcome of
  `parse_time_string` on its `start_time`/`end_time` columns
  (`none` = unparsable, mirrored by the loop's `continue`).
* External capability stages (whisper transcription segments, librosa gap
  detection, pyannote diarization, ffprobe duration) are inputs to the
  score-fusion function, exactly as they are stage outputs in the source;
  `filler_total` abstracts `sum(_detect_fillers_from_text(transcript).values())`.
* Display-string fields (formatted messages, `display_time`) are not
  modelled; each `Verdict` constructor corresponds to exactly one return
  site / message template of `validate_video_timing`. Fields of the
  payload dict that no claim concerns (sentiment, tone, summary,
  meeting_id, turn_taking_frequency) are omitted.
-/

/-- Python `str.isspace` character class used by `str.split()`. -/
def pyIsSpace (c : Char) : Bool :=
  c = ' ' || c = '\t' || c = '\n' || c = '\r' || c = '\x0b' || c = '\x0c'

/-- Whitespace-run splitting of a character list, as Python `str.split()`:
runs of whitespace separate words, leading/trailing whitespace ignored. -/
def wordsAux : List Char → List Char → List (List Char)
  | [], [] => []
  | [], acc => [acc.reverse]
  | c :: cs, acc =>
    if pyIsSpace c then
      if acc = [] then wordsAux cs [] else acc.reverse :: wordsAux cs []
    else wordsAux cs (c :: acc)

/-- `len(s.split())` in Python. -/
def word_count (s : String) : Nat := (wordsAux s.data []).length

/-- Python `str.strip()` on a character list. -/
def py_strip (l : List Char) : List Char :=
  ((l.dropWhile pyIsSpace).reverse.dropWhile pyIsSpace).reverse

/-- Python `round` with no digits argument: round half to even. -/
def py_round (q : ℚ) : ℤ :=
  if q - ⌊q⌋ < 1/2 then ⌊q⌋
  else if 1/2 < q - ⌊q⌋ then ⌊q⌋ + 1
  else if ⌊q⌋ % 2 = 0 then ⌊q⌋ else ⌊q⌋ + 1

/-- Python `int()` on a float: truncation toward zero. -/
def py_int (q : ℚ) : ℤ := if q < 0 then ⌈q⌉ else ⌊q⌋

/-! ## Period-timing qualifier (`validate_video_timing`) -/

/-- One row of the `period_timings` table, with `start_time`/`end_time`
already sent through `parse_time_string` (seconds-in-day; `none` when the
string parses under neither `%I:%M %p` nor `%H:%M`, in which case the
classification loop skips the row via `continue`). -/
structure PeriodTiming where
  period : Nat
  startTod : Option Nat
  endTod : Option Nat
deriving DecidableEq, Repr

/-- The `timing_details` dict (numeric fields; the formatted time strings
are display-only and not modelled). -/
structure TimingDetails where
  start_delay_minutes : ℤ
  end_difference_minutes : ℤ
  duration_minutes : ℤ
deriving DecidableEq, Repr

/-- One constructor per return site of `validate_video_timing`,
distinguished in the source by its message template. -/
inductive Verdict where
  | periodNotFound (target : Nat)
  | missingTimestamp
  | unparsableTimestamp
  | qualified (period : Nat) (details : TimingDetails)
  | qualifiedLateStart (period : Nat) (details : TimingDetails)
  | notQualifiedLate (period : Nat) (details : TimingDetails)
  | notQualifiedEarly (period : Nat) (details : TimingDetails)
  | notQualifiedOverrun (period : Nat) (details : TimingDetails)
  | noMatch
deriving DecidableEq, Repr

/-- The `is_qualified` field of the returned dict. -/
def Verdict.is_qualified : Verdict → Bool
  | .qualified .. => true
  | .qualifiedLateStart .. => true
  | _ => false

/-- The `matched_period` field of the returned dict. -/
def Verdict.matched_period : Verdict → Option Nat
  | .qualified p _ => some p
  | .qualifiedLateStart p _ => some p
  | .notQualifiedLate p _ => some p
  | .notQualifiedEarly p _ => some p
  | .notQualifiedOverrun p _ => some p
  | _ => none

/-- The `timing_details` field of the returned dict. -/
def Verdict.timing_details : Verdict → Option TimingDetails
  | .qualified _ d => some d
  | .qualifiedLateStart _ d => some d
  | .notQualifiedLate _ d => some d
  | .notQualifiedEarly _ d => some d
  | .notQualifiedOverrun _ d => some d
  | _ => none

/-- Outcome of the raw `video_start_time` string preprocessing: Python
falsiness check (`None` or `""`), then the four-format strptime chain.
`parsed tod` carries the parsed datetime's time-of-day in seconds
(before the IST offset is applied). -/
inductive VideoStartInput where
  | missing
  | unparsable
  | parsed (tod : Nat)
deriving DecidableEq, Repr

/-- `IST_OFFSET = timedelta(hours=5, minutes=30)` in seconds. -/
def IST_OFFSET_SECONDS : Nat := 19800

def SECONDS_PER_DAY : Nat := 86400

/-- The per-window body of the classification loop (lines 306–410 of
`src/backend/main.py`): parse the window's times (skip on failure),
compute whole-minute deltas, then test the five conditions in source
order; `none` models `continue` to the next window. -/
def classify_window (vS vE : Nat) (duration_seconds : Nat)
    (w : PeriodTiming) : Option Verdict :=
  match w.startTod, w.endTod with
  | some pS, some pE =>
    let video_start_minutes : ℤ := (vS / 60 : Nat)
    let video_end_minutes : ℤ := (vE / 60 : Nat)
    let period_start_minutes : ℤ := (pS / 60 : Nat)
    let period_end_minutes : ℤ := (pE / 60 : Nat)
    let start_delay_minutes := video_start_minutes - period_start_minutes
    let end_diff_minutes := period_end_minutes - video_end_minutes
    let details : TimingDetails :=
      ⟨start_delay_minutes, end_diff_minutes, (duration_seconds / 60 : Nat)⟩
    if vS ≥ pS ∧ vE ≤ pE then
      some (.qualified w.period details)
    else if start_delay_minutes > 0 ∧ start_delay_minutes ≤ 15 ∧ vE ≤ pE then
      some (.qualifiedLateStart w.period details)
    else if start_delay_minutes > 15 then
      some (.notQualifiedLate w.period details)
    else if vS < pS then
      some (.notQualifiedEarly w.period details)
    else if vE > pE then
      some (.notQualifiedOverrun w.period details)
    else none
  | _, _ => none

/-- First decisive classification over the window list (the `for` loop:
first `return` wins, `continue` otherwise). -/
def find_classification (vS vE : Nat) (duration_seconds : Nat) :
    List PeriodTiming → Option Verdict
  | [] => none
  | w :: ws =>
    match classify_window vS vE duration_seconds w with
    | some v => some v
    | none => find_classification vS vE duration_seconds ws

/-- Insertion step for `order_by(PeriodTiming.period)`. -/
def insertByPeriod (w : PeriodTiming) : List PeriodTiming → List PeriodTiming
  | [] => [w]
  | x :: xs =>
    if w.period ≤ x.period then w :: x :: xs else x :: insertByPeriod w xs

/-- `db.query(PeriodTiming).order_by(PeriodTiming.period).all()`. -/
def sortByPeriod : List PeriodTiming → List PeriodTiming
  | [] => []
  | x :: xs => insertByPeriod x (sortByPeriod xs)

/-- The body of `validate_video_timing` after the window set has been
fixed: falsiness check on the start string, strptime chain, IST offset,
end-time computation, then the classification loop; `NoMatch` when no
window is decisive. -/
def validate_with_windows (video_start_time : VideoStartInput)
    (duration_seconds : Nat) (period_timings : List PeriodTiming) : Verdict :=
  match video_start_time with
  | .missing => .missingTimestamp
  | .unparsable => .unparsableTimestamp
  | .parsed tod =>
    let video_start_tod := (tod + IST_OFFSET_SECONDS) % SECONDS_PER_DAY
    let video_end_tod := (video_start_tod + duration_seconds) % SECONDS_PER_DAY
    match find_classification video_start_tod video_end_tod duration_seconds
        period_timings with
    | some v => v
    | none => .noMatch
  -- note: `.missing` is checked before `.unparsable` exactly as the
  -- source checks `if not video_start_time` before attempting to parse.

/-- `validate_video_timing(video_start_time, _, duration_seconds, db,
target_period)`.  Python treats `target_period = None` and
`target_period = 0` both as "no target" (`if target_period:`); with a
truthy target, the row lookup happens *before* the missing-timestamp
check. `period_timings_all` is the `period_timings` table content. -/
def validate_video_timing (video_start_time : VideoStartInput)
    (duration_seconds : Nat) (period_timings_all : List PeriodTiming)
    (target_period : Option Nat) : Verdict :=
  let target : Option Nat :=
    match target_period with
    | some t => if t = 0 then none else some t
    | none => none
  match target with
  | some t =>
    match period_timings_all.find? (fun w => w.period = t) with
    | none => .periodNotFound t
    | some w => validate_with_windows video_start_time duration_seconds [w]
  | none =>
    validate_with_windows video_start_time duration_seconds
      (sortByPeriod period_timings_all)

/-! ## Engagement score fusion and timeline -/

/-- A whisper transcript segment `{start, end, text}`; the Python dict key
`end` is a Lean keyword and is rendered `stop`. -/
structure TranscriptSegment where
  start : ℚ
  stop : ℚ
  text : String
deriving DecidableEq, Repr

/-- One point of the engagement timeline `{minute, score}`. -/
structure TimelinePoint where
  minute : Nat
  score : ℤ
deriving DecidableEq, Repr

/-- `_clamp_score(value)` = `max(0, min(100, int(round(value))))`. -/
def clamp_score (value : ℚ) : ℤ := max 0 (min 100 (py_round value))

/-- The contribution of a single transcript segment to one minute bucket
(the inner loop body of `_build_engagement_timeline`). -/
def segment_minute_words (minute_start minute_end : ℚ)
    (segment : TranscriptSegment) : ℚ :=
  let text := py_strip segment.text.data
  if text = [] then 0
  else
    let overlap := max 0 (min segment.stop minute_end -
      max segment.start minute_start)
    let seg_dur := max (1/10) (segment.stop - segment.start)
    if overlap > 0 then
      ((wordsAux text []).length : ℚ) * overlap / seg_dur
    else 0

/-- `_build_engagement_timeline(segments, duration_seconds, baseline)`. -/
def build_engagement_timeline (segments : List TranscriptSegment)
    (duration_seconds : ℤ) (baseline : ℤ) : List TimelinePoint :=
  if duration_seconds ≤ 0 then [⟨1, baseline⟩]
  else
    let total_minutes := max 1 ((duration_seconds + 59) / 60).toNat
    (List.range total_minutes).map (fun i =>
      let minute : Nat := i + 1
      let minute_start : ℚ := ((minute : ℚ) - 1) * 60
      let minute_end : ℚ := (minute : ℚ) * 60
      let minute_words := segments.foldl
        (fun acc s => acc + segment_minute_words minute_start minute_end s) 0
      ⟨minute, clamp_score ((baseline : ℚ) * (65/100) +
        min 35 (minute_words * (11/10)))⟩)

/-- `filler_penalty = min(25, (filler_total / max(1, total_words)) * 200)`. -/
def filler_penalty (filler_total : Nat) (total_words : Nat) : ℚ :=
  min 25 (((filler_total : ℚ) / (max 1 total_words : Nat)) * 200)

/-- `gap_penalty = min(20, total_gap_duration / max(1, duration_seconds) * 100)`. -/
def gap_penalty (total_gap_duration : ℚ) (duration_seconds : ℤ) : ℚ :=
  min 20 (total_gap_duration / ((max 1 duration_seconds : ℤ) : ℚ) * 100)

/-- The claim-relevant fields of the payload dict returned by
`build_engagement_from_upload`. -/
structure EngagementPayload where
  engagement_score : ℤ
  combined_engagement_score : ℤ
  video_engagement_score : ℤ
  speaking_rate_wpm : ℤ
  total_words : Nat
  filler_word_total : Nat
  total_gap_duration : ℚ
  speaker_count : Nat
  clarity_score : ℤ
  confidence_score : ℤ
  engagement_timeline : List TimelinePoint
deriving DecidableEq, Repr

/-- Score fusion of `build_engagement_from_upload` (lines 1159–1215 of
`src/backend/main.py`).  The stage outputs — transcription
(`transcript`, `transcript_segments`), filler tally
(`filler_total = sum(_detect_fillers_from_text(transcript).values())`),
gap detection (`total_gap_duration`), diarization (`speaker_count`) —
and the resolved `duration_seconds` and `upload.is_qualified` are the
inputs, per the external-capability boundary of the pipeline. -/
def build_engagement_from_upload (transcript : String)
    (transcript_segments : List TranscriptSegment) (filler_total : Nat)
    (total_gap_duration : ℚ) (speaker_count : Nat) (duration_seconds : ℤ)
    (is_qualified : Bool) : EngagementPayload :=
  let total_words : Nat := if transcript ≠ "" then word_count transcript else 0
  let effective_speaking_seconds : ℚ :=
    max 1 ((duration_seconds : ℚ) - total_gap_duration)
  let speaking_rate_wpm : ℤ :=
    if total_words > 0 then
      py_int (((total_words : ℚ) / effective_speaking_seconds) * 60)
    else 0
  let engagement_score : ℤ :=
    if total_words = 0 then 0
    else
      let speaking_rate_bonus : ℚ :=
        if 100 ≤ speaking_rate_wpm ∧ speaking_rate_wpm ≤ 170 then 10 else 0
      clamp_score (70 - filler_penalty filler_total total_words -
        gap_penalty total_gap_duration duration_seconds + speaking_rate_bonus)
  let video_engagement_score : ℤ :=
    clamp_score ((engagement_score : ℚ) * (7/10) +
      (if is_qualified then 10 else 0))
  let combined_engagement_score : ℤ :=
    clamp_score ((engagement_score : ℚ) * (65/100) +
      (video_engagement_score : ℚ) * (35/100))
  let timeline :=
    build_engagement_timeline transcript_segments duration_seconds
      engagement_score
  let clarity_score : ℤ :=
    if total_words ≠ 0 then
      clamp_score (75 - min 25 (((filler_total : ℚ) /
        (max 1 total_words : Nat)) * 180) - min 15 total_gap_duration)
    else 0
  let confidence_score : ℤ :=
    if total_words ≠ 0 then
      clamp_score ((combined_engagement_score : ℚ) * (8/10) +
        (if 100 ≤ speaking_rate_wpm then 10 else 0))
    else 0
  { engagement_score := engagement_score
    combined_engagement_score := combined_engagement_score
    video_engagement_score := video_engagement_score
    speaking_rate_wpm := speaking_rate_wpm
    total_words := total_words
    filler_word_total := filler_total
    total_gap_duration := total_gap_duration
    speaker_count := speaker_count
    clarity_score := clarity_score
    confidence_score := confidence_score
    engagement_timeline := timeline }

/-! ## Report lifecycle (`ensure_local_engagement_for_upload`) -/

/-- One `engagement_analyses` row, keyed by the owning upload; the payload
content (including the fresh `meeting_id`) is abstracted to a tag. -/
structure ReportRow where
  video_upload_id : Nat
  payload : Nat
deriving DecidableEq, Repr

/-- Number of live reports for an upload in the table. -/
def reports_for (upload_id : Nat) (db : List ReportRow) : Nat :=
  (db.filter (fun r => r.video_upload_id = upload_id)).length

/-- `ensure_local_engagement_for_upload(upload, db, _, force_recompute)`:
query the first existing row for the upload; return it unless
`force_recompute`; on forced recompute delete it, then build and insert a
fresh row (`fresh_payload` abstracts the newly built payload).  Returns
the resulting report and the new table state. -/
def ensure_local_engagement_for_upload (upload_id : Nat) (force_recompute : Bool)
    (db : List ReportRow) (fresh_payload : Nat) : ReportRow × List ReportRow :=
  match db.find? (fun r => r.video_upload_id = upload_id) with
  | some existing =>
    if ¬ force_recompute then (existing, db)
    else
      let db1 := db.erase existing
      let analysis : ReportRow := ⟨upload_id, fresh_payload⟩
      (analysis, db1 ++ [analysis])
  | none =>
    let analysis : ReportRow := ⟨upload_id, fresh_payload⟩
    (analysis, db ++ [analysis])

/-! ## Helper lemmas -/

/-- The whole-minute delta the source computes from hour/minute fields:
`(h*60+m)` of a seconds-in-day value is its truncated minute count. -/
def whole_minute_delay (vS pS : Nat) : ℤ := ((vS / 60 : Nat) : ℤ) - ((pS / 60 : Nat) : ℤ)

lemma sortByPeriod_singleton (w : PeriodTiming) : sortByPeriod [w] = [w] := rfl

lemma validate_video_timing_no_target (v : VideoStartInput) (dur : Nat)
    (ws : List PeriodTiming) :
    validate_video_timing v dur ws none =
      validate_with_windows v dur (sortByPeriod ws) := rfl

/-- With a positive whole-minute delay, the video's start time-of-day is at
or after the window's start (the seconds-truncation argument that makes
the `QualifiedLateStart` return site unreachable when the end fits). -/
lemma start_ge_of_delay_pos {vS pS : Nat} (h : 1 ≤ whole_minute_delay vS pS) :
    pS ≤ vS := by
  unfold whole_minute_delay at h
  omega

lemma classify_window_eq (vS vE dur pS pE p : Nat) :
    classify_window vS vE dur ⟨p, some pS, some pE⟩ =
      (let details : TimingDetails :=
        ⟨whole_minute_delay vS pS, whole_minute_delay pE vE, (dur / 60 : Nat)⟩
      if vS ≥ pS ∧ vE ≤ pE then
        some (.qualified p details)
      else if whole_minute_delay vS pS > 0 ∧ whole_minute_delay vS pS ≤ 15 ∧ vE ≤ pE then
        some (.qualifiedLateStart p details)
      else if whole_minute_delay vS pS > 15 then
        some (.notQualifiedLate p details)
      else if vS < pS then
        some (.notQualifiedEarly p details)
      else if vE > pE then
        some (.notQualifiedOverrun p details)
      else none) := rfl

/-! ## Claims about the qualifier -/


lemma validate_singleton_eq (t dur : Nat) (w : PeriodTiming) :
    validate_video_timing (.parsed t) dur [w] none =
      match classify_window ((t + IST_OFFSET_SECONDS) % SECONDS_PER_DAY)
          (((t + IST_OFFSET_SECONDS) % SECONDS_PER_DAY + dur) % SECONDS_PER_DAY)
          dur w with
      | some v => v
      | none => .noMatch := by
  cases h : classify_window ((t + IST_OFFSET_SECONDS) % SECONDS_PER_DAY)
      (((t + IST_OFFSET_SECONDS) % SECONDS_PER_DAY + dur) % SECONDS_PER_DAY)
      dur w with
  | none =>
    simp only [validate_video_timing, validate_with_windows, sortByPeriod,
      insertByPeriod, find_classification, h]
  | some v =>
    simp only [validate_video_timing, validate_with_windows, sortByPeriod,
      insertByPeriod, find_classification, h]

/-- C4: for a video whose local start time-of-day equals the window's
start and whose computed end time-of-day is at or before the window's
end, `validate_video_timing` returns the `Qualified` verdict with
`is_qualified = true`, `matched_period = W.period` and
`timing_details.start_delay_minutes = 0`. -/
theorem c4_zero_delay_qualified (t dur pS pE p : Nat)
    (hstart : (t + IST_OFFSET_SECONDS) % SECONDS_PER_DAY = pS)
    (hend : (pS + dur) % SECONDS_PER_DAY ≤ pE) :
    validate_video_timing (.parsed t) dur [⟨p, some pS, some pE⟩] none =
      .qualified p ⟨0, whole_minute_delay pE ((pS + dur) % SECONDS_PER_DAY),
        (dur / 60 : Nat)⟩ ∧
    (validate_video_timing (.parsed t) dur [⟨p, some pS, some pE⟩] none).is_qualified
      = true ∧
    (validate_video_timing (.parsed t) dur [⟨p, some pS, some pE⟩] none).matched_period
      = some p := by
  have h1 : validate_video_timing (.parsed t) dur [⟨p, some pS, some pE⟩] none =
      .qualified p ⟨0, whole_minute_delay pE ((pS + dur) % SECONDS_PER_DAY),
        (dur / 60 : Nat)⟩ := by
    rw [validate_singleton_eq, hstart, classify_window_eq]
    rw [if_pos ⟨le_refl pS, hend⟩]
    simp [whole_minute_delay]
  exact ⟨h1, by rw [h1]; rfl, by rw [h1]; rfl⟩

theorem c4_zero_delay_qualified_witness :
    validate_video_timing (.parsed 9000) 2400 [⟨1, some 28800, some 31500⟩] none =
      .qualified 1 ⟨0, whole_minute_delay 31500 ((28800 + 2400) % SECONDS_PER_DAY),
        (2400 / 60 : Nat)⟩ ∧
    (validate_video_timing (.parsed 9000) 2400
      [⟨1, some 28800, some 31500⟩] none).is_qualified = true ∧
    (validate_video_timing (.parsed 9000) 2400
      [⟨1, some 28800, some 31500⟩] none).matched_period = some 1 :=
  c4_zero_delay_qualified 9000 2400 28800 31500 1 (by decide) (by decide)

/-- C1 counterexample: the end-to-end example of the claim — window
`{period 1, 08:00 AM (28800 s), 08:45 AM (31500 s)}`, video start
02:35 UTC (9300 s, i.e. 08:05 AM local), duration 2400 s, hence local end
08:45 AM.  The delay is 5 whole minutes and the end is at the window end,
yet the code returns the plain `Qualified` return site (its
`is_within_period` test `video_start >= period_start and video_end <=
period_end` already succeeds), not the `QualifiedLateStart` one. -/
theorem c1_late_start_counterexample :
    validate_video_timing (.parsed 9300) 2400 [⟨1, some 28800, some 31500⟩] none =
      .qualified 1 ⟨5, 0, 40⟩ ∧
    validate_video_timing (.parsed 9300) 2400 [⟨1, some 28800, some 31500⟩] none ≠
      .qualifiedLateStart 1 ⟨5, 0, 40⟩ := by decide

/-- C1 (amended): for every period window and every video whose local
start is a whole-minute delay of 1–15 minutes after the window start and
whose computed end is at or before the window end, the qualifier returns
the plain `Qualified` verdict (is_qualified = true) carrying
`start_delay_minutes` = the delay; the `QualifiedLateStart` return site is
unreachable for such inputs. -/
theorem c1_amended_late_start_is_qualified (t dur pS pE p : Nat)
    (hlo : 1 ≤ whole_minute_delay ((t + IST_OFFSET_SECONDS) % SECONDS_PER_DAY) pS)
    (_hhi : whole_minute_delay ((t + IST_OFFSET_SECONDS) % SECONDS_PER_DAY) pS ≤ 15)
    (hend : ((t + IST_OFFSET_SECONDS) % SECONDS_PER_DAY + dur) % SECONDS_PER_DAY ≤ pE) :
    validate_video_timing (.parsed t) dur [⟨p, some pS, some pE⟩] none =
      .qualified p
        ⟨whole_minute_delay ((t + IST_OFFSET_SECONDS) % SECONDS_PER_DAY) pS,
         whole_minute_delay pE
           (((t + IST_OFFSET_SECONDS) % SECONDS_PER_DAY + dur) % SECONDS_PER_DAY),
         (dur / 60 : Nat)⟩ ∧
    (validate_video_timing (.parsed t) dur [⟨p, some pS, some pE⟩] none).is_qualified
      = true := by
  have hge : pS ≤ (t + IST_OFFSET_SECONDS) % SECONDS_PER_DAY :=
    start_ge_of_delay_pos hlo
  have h1 : validate_video_timing (.parsed t) dur [⟨p, some pS, some pE⟩] none =
      .qualified p
        ⟨whole_minute_delay ((t + IST_OFFSET_SECONDS) % SECONDS_PER_DAY) pS,
         whole_minute_delay pE
           (((t + IST_OFFSET_SECONDS) % SECONDS_PER_DAY + dur) % SECONDS_PER_DAY),
         (dur / 60 : Nat)⟩ := by
    rw [validate_singleton_eq, classify_window_eq]
    rw [if_pos ⟨hge, hend⟩]
  exact ⟨h1, by rw [h1]; rfl⟩

theorem c1_amended_late_start_is_qualified_witness :
    validate_video_timing (.parsed 9300) 2400 [⟨1, some 28800, some 31500⟩] none =
      .qualified 1
        ⟨whole_minute_delay ((9300 + IST_OFFSET_SECONDS) % SECONDS_PER_DAY) 28800,
         whole_minute_delay 31500
           (((9300 + IST_OFFSET_SECONDS) % SECONDS_PER_DAY + 2400) % SECONDS_PER_DAY),
         (2400 / 60 : Nat)⟩ ∧
    (validate_video_timing (.parsed 9300) 2400
      [⟨1, some 28800, some 31500⟩] none).is_qualified = true :=
  c1_amended_late_start_is_qualified 9300 2400 28800 31500 1
    (by decide) (by decide) (by decide)

/-- C5 counterexample: window `08:00 AM – 09:00 AM` (28800–32400 s), video
start 02:50 UTC (10200 s, i.e. 08:20 AM local), duration 600 s → local end
08:30 AM.  The whole-minute delay is 20 > 15, yet because the video ends
inside the window the `is_within_period` branch fires and the code
returns `Qualified` with `is_qualified = true` — not `NotQualifiedLate`
with `is_qualified = false` as the claim states for any end time. -/
theorem c5_very_late_counterexample :
    validate_video_timing (.parsed 10200) 600 [⟨1, some 28800, some 32400⟩] none =
      .qualified 1 ⟨20, 30, 10⟩ ∧
    (validate_video_timing (.parsed 10200) 600
      [⟨1, some 28800, some 32400⟩] none).is_qualified = true := by decide

/-- C5 (amended): for every period window and every video whose
whole-minute start delay exceeds 15 minutes **and whose computed end
time-of-day is strictly after the window end**, the qualifier returns
`NotQualifiedLate` (is_qualified = false, matched_period = W.period);
when such a very late video still ends at or before the window end, the
code instead returns `Qualified` (see the counterexample). -/
theorem c5_amended_very_late (t dur pS pE p : Nat)
    (hdelay : 15 < whole_minute_delay ((t + IST_OFFSET_SECONDS) % SECONDS_PER_DAY) pS)
    (hend : pE < ((t + IST_OFFSET_SECONDS) % SECONDS_PER_DAY + dur) % SECONDS_PER_DAY) :
    validate_video_timing (.parsed t) dur [⟨p, some pS, some pE⟩] none =
      .notQualifiedLate p
        ⟨whole_minute_delay ((t + IST_OFFSET_SECONDS) % SECONDS_PER_DAY) pS,
         whole_minute_delay pE
           (((t + IST_OFFSET_SECONDS) % SECONDS_PER_DAY + dur) % SECONDS_PER_DAY),
         (dur / 60 : Nat)⟩ ∧
    (validate_video_timing (.parsed t) dur [⟨p, some pS, some pE⟩] none).is_qualified
      = false ∧
    (validate_video_timing (.parsed t) dur [⟨p, some pS, some pE⟩] none).matched_period
      = some p := by
  have h1 : validate_video_timing (.parsed t) dur [⟨p, some pS, some pE⟩] none =
      .notQualifiedLate p
        ⟨whole_minute_delay ((t + IST_OFFSET_SECONDS) % SECONDS_PER_DAY) pS,
         whole_minute_delay pE
           (((t + IST_OFFSET_SECONDS) % SECONDS_PER_DAY + dur) % SECONDS_PER_DAY),
         (dur / 60 : Nat)⟩ := by
    rw [validate_singleton_eq, classify_window_eq]
    rw [if_neg (fun hc => absurd hc.2 (not_le.mpr hend))]
    rw [if_neg (fun hc => absurd hc.2.1 (not_le.mpr hdelay))]
    rw [if_pos hdelay]
  exact ⟨h1, by rw [h1]; rfl, by rw [h1]; rfl⟩

theorem c5_amended_very_late_witness :
    validate_video_timing (.parsed 10200) 1800 [⟨1, some 28800, some 30000⟩] none =
      .notQualifiedLate 1
        ⟨whole_minute_delay ((10200 + IST_OFFSET_SECONDS) % SECONDS_PER_DAY) 28800,
         whole_minute_delay 30000
           (((10200 + IST_OFFSET_SECONDS) % SECONDS_PER_DAY + 1800) % SECONDS_PER_DAY),
         (1800 / 60 : Nat)⟩ ∧
    (validate_video_timing (.parsed 10200) 1800
      [⟨1, some 28800, some 30000⟩] none).is_qualified = false ∧
    (validate_video_timing (.parsed 10200) 1800
      [⟨1, some 28800, some 30000⟩] none).matched_period = some 1 :=
  c5_amended_very_late 10200 1800 28800 30000 1 (by decide) (by decide)

/-- Whether the lookup that precedes the missing-timestamp check
succeeds: no (truthy) target was requested, or the requested target
exists in the window set. -/
def target_lookup_ok (windows : List PeriodTiming) : Option Nat → Prop
  | none => True
  | some t => t = 0 ∨ (windows.find? (fun w => w.period = t)).isSome

/-- C2 counterexample: with the video start timestamp absent but a target
period requested that is not in the window set, the code returns
`PeriodNotFound` — the target lookup precedes the missing-timestamp
check — so the verdict is not `MissingTimestamp` independent of the
window set. -/
theorem c2_missing_with_target_counterexample :
    validate_video_timing .missing 100 [] (some 1) = .periodNotFound 1 ∧
    Verdict.periodNotFound 1 ≠ .missingTimestamp := by decide

/-- C2 (amended): with the video start timestamp absent (None or empty),
the qualifier returns `MissingTimestamp` independent of the duration and
of the window set, *provided* the requested target period (if any truthy
one was requested) exists in the window set; otherwise `PeriodNotFound`
takes priority. -/
theorem c2_amended_missing_timestamp (dur : Nat) (windows : List PeriodTiming)
    (target : Option Nat) (h : target_lookup_ok windows target) :
    validate_video_timing .missing dur windows target = .missingTimestamp := by
  cases target with
  | none => rfl
  | some t =>
    by_cases ht : t = 0
    · subst ht; rfl
    · simp only [target_lookup_ok] at h
      rcases h with h0 | hfound
      · exact absurd h0 ht
      · obtain ⟨w, hw⟩ := Option.isSome_iff_exists.mp hfound
        simp only [validate_video_timing, if_neg ht, hw]
        rfl

theorem c2_amended_missing_timestamp_witness :
    validate_video_timing .missing 600 [⟨1, some 28800, some 31500⟩] (some 1) =
      .missingTimestamp :=
  c2_amended_missing_timestamp 600 [⟨1, some 28800, some 31500⟩] (some 1)
    (Or.inr (by decide))

/-! ## Arithmetic helper lemmas for the score fusion -/

lemma py_int_of_nonneg (q : ℚ) (h : 0 ≤ q) : py_int q = ⌊q⌋ := by
  unfold py_int
  rw [if_neg (not_lt.mpr h)]

lemma floor_le_py_round (q : ℚ) : ⌊q⌋ ≤ py_round q := by
  unfold py_round
  split_ifs <;> omega

lemma py_round_le_ceil (q : ℚ) : py_round q ≤ ⌈q⌉ := by
  have hfc : ⌊q⌋ ≤ ⌈q⌉ := Int.floor_le_ceil q
  have hbump : ¬ (q - ⌊q⌋ < 1/2) → ⌊q⌋ + 1 ≤ ⌈q⌉ := by
    intro h1
    push_neg at h1
    have hq : (⌊q⌋ : ℚ) < q := by linarith
    exact Int.add_one_le_iff.mpr (Int.lt_ceil.mpr hq)
  unfold py_round
  split_ifs with h1 h2 h3
  · exact hfc
  · exact hbump h1
  · exact hfc
  · exact hbump h1

lemma py_round_intCast (z : ℤ) : py_round (z : ℚ) = z := by
  unfold py_round
  rw [Int.floor_intCast]
  rw [if_pos (by norm_num : ((z : ℚ) - z) < 1/2)]

lemma clamp_score_nonneg (v : ℚ) : 0 ≤ clamp_score v := le_max_left 0 _

lemma clamp_score_le_hundred (v : ℚ) : clamp_score v ≤ 100 := by
  unfold clamp_score
  exact max_le (by norm_num) (min_le_left _ _)

/-- When the raw value lies in an integer interval `[lo, hi] ⊆ [0, 100]`,
round-then-clamp keeps it in that interval. -/
lemma clamp_score_between {v : ℚ} {lo hi : ℤ} (hlo0 : 0 ≤ lo)
    (hhi100 : hi ≤ 100) (h1 : (lo : ℚ) ≤ v) (h2 : v ≤ (hi : ℚ)) :
    lo ≤ clamp_score v ∧ clamp_score v ≤ hi := by
  have hp1 : lo ≤ py_round v := le_trans (Int.le_floor.mpr h1) (floor_le_py_round v)
  have hp2 : py_round v ≤ hi := le_trans (py_round_le_ceil v) (Int.ceil_le.mpr h2)
  unfold clamp_score
  rw [min_eq_right (by omega), max_eq_right (by omega)]
  exact ⟨hp1, hp2⟩

/-! ## Field-unfolding lemmas for the fused payload -/

lemma build_total_words_eq (transcript : String) (segs : List TranscriptSegment)
    (f : Nat) (g : ℚ) (sc : Nat) (d : ℤ) (q : Bool) :
    (build_engagement_from_upload transcript segs f g sc d q).total_words =
      if transcript ≠ "" then word_count transcript else 0 := rfl

lemma build_speaking_rate_eq (transcript : String) (segs : List TranscriptSegment)
    (f : Nat) (g : ℚ) (sc : Nat) (d : ℤ) (q : Bool) :
    (build_engagement_from_upload transcript segs f g sc d q).speaking_rate_wpm =
      if (if transcript ≠ "" then word_count transcript else 0) > 0 then
        py_int ((((if transcript ≠ "" then word_count transcript else 0 : Nat) : ℚ) /
          max 1 ((d : ℚ) - g)) * 60)
      else 0 := rfl

lemma build_engagement_score_eq (transcript : String) (segs : List TranscriptSegment)
    (f : Nat) (g : ℚ) (sc : Nat) (d : ℤ) (q : Bool) :
    (build_engagement_from_upload transcript segs f g sc d q).engagement_score =
      if (if transcript ≠ "" then word_count transcript else 0) = 0 then 0
      else
        clamp_score (70 -
          filler_penalty f (if transcript ≠ "" then word_count transcript else 0) -
          gap_penalty g d +
          (if 100 ≤ (build_engagement_from_upload transcript segs f g sc d q).speaking_rate_wpm ∧
              (build_engagement_from_upload transcript segs f g sc d q).speaking_rate_wpm ≤ 170
            then 10 else 0)) := rfl

lemma build_clarity_eq (transcript : String) (segs : List TranscriptSegment)
    (f : Nat) (g : ℚ) (sc : Nat) (d : ℤ) (q : Bool) :
    (build_engagement_from_upload transcript segs f g sc d q).clarity_score =
      if (if transcript ≠ "" then word_count transcript else 0) ≠ 0 then
        clamp_score (75 - min 25 (((f : ℚ) /
          ((max 1 (if transcript ≠ "" then word_count transcript else 0) : Nat) : ℚ)) * 180)
          - min 15 g)
      else 0 := rfl

lemma build_confidence_eq (transcript : String) (segs : List TranscriptSegment)
    (f : Nat) (g : ℚ) (sc : Nat) (d : ℤ) (q : Bool) :
    (build_engagement_from_upload transcript segs f g sc d q).confidence_score =
      if (if transcript ≠ "" then word_count transcript else 0) ≠ 0 then
        clamp_score
          (((build_engagement_from_upload transcript segs f g sc d q).combined_engagement_score : ℚ)
              * (8/10) +
            (if 100 ≤ (build_engagement_from_upload transcript segs f g sc d q).speaking_rate_wpm
              then 10 else 0))
      else 0 := rfl

lemma build_timeline_eq (transcript : String) (segs : List TranscriptSegment)
    (f : Nat) (g : ℚ) (sc : Nat) (d : ℤ) (q : Bool) :
    (build_engagement_from_upload transcript segs f g sc d q).engagement_timeline =
      build_engagement_timeline segs d
        (build_engagement_from_upload transcript segs f g sc d q).engagement_score := rfl

/-- C3 counterexample: transcript `"hello"` (1 word), duration 40 s, no
gaps.  The exact rate is 1.5 wpm; the code truncates (`int(...)`) to 1,
while the claimed round-to-nearest gives 2. -/
theorem c3_round_counterexample :
    (build_engagement_from_upload "hello" [] 0 0 1 40 false).speaking_rate_wpm = 1 ∧
    py_round (((word_count "hello" : ℚ) / max 1 ((40 : ℚ) - 0)) * 60) = 2 ∧
    (1 : ℤ) ≠ 2 := by
  have hwc : word_count "hello" = 1 := by decide
  refine ⟨?_, ?_, by decide⟩
  · simp [build_engagement_from_upload, word_count, wordsAux, pyIsSpace, py_int]
    norm_num [Int.floor_eq_iff]
  · rw [hwc]
    norm_num [py_round]

/-- C3 (amended): the speaking rate computed by the score fusion is the
*truncation* (floor, not round-to-nearest) of
`totalWords / max(1, duration − totalGapDuration) * 60` when
`totalWords > 0`, and `0` when `totalWords = 0`. -/
theorem c3_amended_truncated_rate (transcript : String)
    (segs : List TranscriptSegment) (f : Nat) (g : ℚ) (sc : Nat) (d : ℤ)
    (q : Bool) :
    (build_engagement_from_upload transcript segs f g sc d q).speaking_rate_wpm =
      if 0 < word_count transcript then
        ⌊((word_count transcript : ℚ) * 60) / max 1 ((d : ℚ) - g)⌋
      else 0 := by
  have hW : (if transcript ≠ "" then word_count transcript else 0) =
      word_count transcript := by
    by_cases ht : transcript = ""
    · subst ht; simp [word_count, wordsAux]
    · simp [ht]
  rw [build_speaking_rate_eq, hW]
  by_cases hwc : 0 < word_count transcript
  · rw [if_pos hwc, if_pos hwc]
    have hE : (0 : ℚ) < max 1 ((d : ℚ) - g) :=
      lt_of_lt_of_le one_pos (le_max_left _ _)
    rw [div_mul_eq_mul_div]
    exact py_int_of_nonneg _ (div_nonneg (by positivity) hE.le)
  · rw [if_neg hwc, if_neg hwc]

/-- C6: whenever the transcript's whitespace-split word count is 0 —
whatever the filler tally, gap total, speaker count, duration and
qualification flag — the fused engagement, clarity and confidence scores
are all 0; and for the empty transcript with duration 600 s the
engagement timeline is exactly 10 points, each with score 0. -/
theorem c6_zero_words_zero_scores :
    (∀ (transcript : String) (segs : List TranscriptSegment) (f : Nat) (g : ℚ)
        (sc : Nat) (d : ℤ) (q : Bool), word_count transcript = 0 →
      (build_engagement_from_upload transcript segs f g sc d q).engagement_score = 0 ∧
      (build_engagement_from_upload transcript segs f g sc d q).clarity_score = 0 ∧
      (build_engagement_from_upload transcript segs f g sc d q).confidence_score = 0) ∧
    (build_engagement_from_upload "" [] 0 0 1 600 false).engagement_timeline =
      [⟨1, 0⟩, ⟨2, 0⟩, ⟨3, 0⟩, ⟨4, 0⟩, ⟨5, 0⟩,
       ⟨6, 0⟩, ⟨7, 0⟩, ⟨8, 0⟩, ⟨9, 0⟩, ⟨10, 0⟩] := by
  have hzero : ∀ (transcript : String) (segs : List TranscriptSegment) (f : Nat)
      (g : ℚ) (sc : Nat) (d : ℤ) (q : Bool), word_count transcript = 0 →
      (build_engagement_from_upload transcript segs f g sc d q).engagement_score = 0 ∧
      (build_engagement_from_upload transcript segs f g sc d q).clarity_score = 0 ∧
      (build_engagement_from_upload transcript segs f g sc d q).confidence_score = 0 := by
    intro transcript segs f g sc d q h
    have hW : (if transcript ≠ "" then word_count transcript else 0) = 0 := by
      by_cases ht : transcript = "" <;> simp [ht, h]
    refine ⟨?_, ?_, ?_⟩
    · rw [build_engagement_score_eq, hW]
      simp
    · rw [build_clarity_eq, hW]
      simp
    · rw [build_confidence_eq, hW]
      simp
  refine ⟨hzero, ?_⟩
  rw [build_timeline_eq]
  have h0 : (build_engagement_from_upload "" [] 0 0 1 600 false).engagement_score
      = 0 := (hzero "" [] 0 0 1 600 false (by decide)).1
  rw [h0]
  show build_engagement_timeline [] 600 0 = _
  norm_num [build_engagement_timeline, clamp_score, py_round, List.range_succ]
  decide

/-- C7: both penalty terms of the score fusion are monotonically
non-decreasing in their varying input (filler total resp. gap total, with
word count resp. duration fixed) and never exceed their caps of 25 and
20. -/
theorem c7_penalties_monotone_capped :
    (∀ (w f1 f2 : Nat), f1 ≤ f2 → filler_penalty f1 w ≤ filler_penalty f2 w) ∧
    (∀ (f w : Nat), filler_penalty f w ≤ 25) ∧
    (∀ (d : ℤ) (g1 g2 : ℚ), 0 ≤ g1 → g1 ≤ g2 →
      gap_penalty g1 d ≤ gap_penalty g2 d) ∧
    (∀ (g : ℚ) (d : ℤ), 0 ≤ g → gap_penalty g d ≤ 20) := by
  refine ⟨?_, ?_, ?_, ?_⟩
  · intro w f1 f2 h
    unfold filler_penalty
    apply min_le_min (le_refl _)
    have hw : (0 : ℚ) < ((max 1 w : Nat) : ℚ) := by
      exact_mod_cast lt_of_lt_of_le one_pos (le_max_left 1 w)
    have hdiv : (f1 : ℚ) / ((max 1 w : Nat) : ℚ) ≤ (f2 : ℚ) / ((max 1 w : Nat) : ℚ) :=
      (div_le_div_right hw).mpr (by exact_mod_cast h)
    exact mul_le_mul_of_nonneg_right hdiv (by norm_num)
  · intro f w
    exact min_le_left _ _
  · intro d g1 g2 _h0 h
    unfold gap_penalty
    apply min_le_min (le_refl _)
    have hd : (0 : ℚ) < ((max 1 d : ℤ) : ℚ) := by
      exact_mod_cast lt_of_lt_of_le one_pos (le_max_left 1 d)
    exact mul_le_mul_of_nonneg_right ((div_le_div_right hd).mpr h) (by norm_num)
  · intro g d _h0
    exact min_le_left _ _

theorem c7_penalties_witness :
    filler_penalty 1 10 ≤ filler_penalty 2 10 ∧
    filler_penalty 7 10 ≤ 25 ∧
    gap_penalty 5 600 ≤ gap_penalty 6 600 ∧
    gap_penalty 5 600 ≤ 20 :=
  ⟨c7_penalties_monotone_capped.1 10 1 2 (by norm_num),
   c7_penalties_monotone_capped.2.1 7 10,
   c7_penalties_monotone_capped.2.2.1 600 5 6 (by norm_num) (by norm_num),
   c7_penalties_monotone_capped.2.2.2 5 600 (by norm_num)⟩

theorem c6_zero_words_zero_scores_witness :
    (build_engagement_from_upload "" [] 3 5 2 600 true).engagement_score = 0 ∧
    (build_engagement_from_upload "" [] 3 5 2 600 true).clarity_score = 0 ∧
    (build_engagement_from_upload "" [] 3 5 2 600 true).confidence_score = 0 :=
  c6_zero_words_zero_scores.1 "" [] 3 5 2 600 true (by decide)

/-- C10 (implicit): with a strictly positive transcript word count (and
the gap total non-negative, as the gap detector guarantees), the fused
engagement score lies in [25, 80]: it is round-then-clamp of
`70 − fillerPenalty − gapPenalty + rateBonus` with `fillerPenalty ∈ [0, 25]`,
`gapPenalty ∈ [0, 20]` and `rateBonus ∈ {0, 10}`. -/
theorem c10_nonempty_engagement_bounds (transcript : String)
    (segs : List TranscriptSegment) (f : Nat) (g : ℚ) (sc : Nat) (d : ℤ)
    (q : Bool) (hw : 0 < word_count transcript) (hg : 0 ≤ g) :
    25 ≤ (build_engagement_from_upload transcript segs f g sc d q).engagement_score ∧
    (build_engagement_from_upload transcript segs f g sc d q).engagement_score ≤ 80 := by
  have ht : transcript ≠ "" := by
    intro h
    rw [h] at hw
    simp [word_count, wordsAux] at hw
  have hW : (if transcript ≠ "" then word_count transcript else 0) =
      word_count transcript := by simp [ht]
  rw [build_engagement_score_eq, hW, if_neg (Nat.pos_iff_ne_zero.mp hw)]
  have hfp0 : 0 ≤ filler_penalty f (word_count transcript) := by
    unfold filler_penalty
    refine le_min (by norm_num) ?_
    positivity
  have hfp25 : filler_penalty f (word_count transcript) ≤ 25 := min_le_left _ _
  have hgp0 : 0 ≤ gap_penalty g d := by
    unfold gap_penalty
    refine le_min (by norm_num) ?_
    have hd : (0 : ℚ) < ((max 1 d : ℤ) : ℚ) := by
      exact_mod_cast lt_of_lt_of_le one_pos (le_max_left 1 d)
    exact mul_nonneg (div_nonneg hg hd.le) (by norm_num)
  have hgp20 : gap_penalty g d ≤ 20 := min_le_left _ _
  generalize (build_engagement_from_upload transcript segs f g sc d q).speaking_rate_wpm = R
  have hbonus : (0 : ℚ) ≤ (if 100 ≤ R ∧ R ≤ 170 then (10 : ℚ) else 0) ∧
      (if 100 ≤ R ∧ R ≤ 170 then (10 : ℚ) else 0) ≤ 10 := by
    split_ifs <;> norm_num
  exact clamp_score_between (by norm_num) (by norm_num)
    (by push_cast; linarith [hbonus.1]) (by push_cast; linarith [hbonus.2])

theorem c10_nonempty_engagement_bounds_witness :
    25 ≤ (build_engagement_from_upload "hello" [] 0 0 1 60 false).engagement_score ∧
    (build_engagement_from_upload "hello" [] 0 0 1 60 false).engagement_score ≤ 80 :=
  c10_nonempty_engagement_bounds "hello" [] 0 0 1 60 false (by decide) (by norm_num)

/-- `ceil(d / 60)` agrees with the `(d + 59) // 60` bucket count of the
timeline builder. -/
lemma ceil_div_sixty (d : ℤ) : ⌈(d : ℚ) / 60⌉ = (d + 59) / 60 := by
  have h1 : 60 * ((d + 59) / 60) ≤ d + 59 := by omega
  have h2 : d + 59 < 60 * ((d + 59) / 60 + 1) := by omega
  rw [Int.ceil_eq_iff]
  constructor
  · rw [lt_div_iff (by norm_num : (0 : ℚ) < 60)]
    exact_mod_cast (by omega : ((d + 59) / 60 - 1) * 60 < d)
  · rw [div_le_iff (by norm_num : (0 : ℚ) < 60)]
    exact_mod_cast (by omega : d ≤ (d + 59) / 60 * 60)

/-- C8 counterexample: `_build_engagement_timeline` with non-positive
duration emits the raw baseline unclamped, so a baseline of 101 yields a
single point whose score 101 is outside [0, 100]. -/
theorem c8_timeline_counterexample :
    build_engagement_timeline [] 0 101 = [⟨1, 101⟩] ∧ ¬ ((101 : ℤ) ≤ 100) := by
  exact ⟨rfl, by decide⟩

/-- C8 (amended): for every duration, segment list and *baseline score in
[0, 100]* (as the pipeline always passes), the timeline has exactly
`ceil(duration/60)` points when `duration > 0` and exactly one point when
`duration ≤ 0`; every point's minute index is at least 1 and every
point's score is an integer in [0, 100].  (With an out-of-range baseline
the single `duration ≤ 0` point reproduces the raw baseline — see the
counterexample.) -/
theorem c8_amended_timeline (segs : List TranscriptSegment) (d : ℤ)
    (baseline : ℤ) (h0 : 0 ≤ baseline) (h100 : baseline ≤ 100) :
    (build_engagement_timeline segs d baseline).length =
      (if 0 < d then (⌈(d : ℚ) / 60⌉).toNat else 1) ∧
    ∀ pt ∈ build_engagement_timeline segs d baseline,
      1 ≤ pt.minute ∧ 0 ≤ pt.score ∧ pt.score ≤ 100 := by
  by_cases hd : d ≤ 0
  · rw [if_neg (not_lt.mpr hd)]
    unfold build_engagement_timeline
    rw [if_pos hd]
    refine ⟨rfl, ?_⟩
    intro pt hpt
    simp only [List.mem_singleton] at hpt
    subst hpt
    exact ⟨le_refl 1, h0, h100⟩
  · push_neg at hd
    rw [if_pos hd]
    unfold build_engagement_timeline
    rw [if_neg (not_le.mpr hd)]
    constructor
    · rw [List.length_map, List.length_range, ceil_div_sixty]
      have h1 : 1 ≤ ((d + 59) / 60).toNat := by omega
      rw [max_eq_right h1]
    · intro pt hpt
      simp only [List.mem_map, List.mem_range] at hpt
      obtain ⟨i, _, rfl⟩ := hpt
      exact ⟨Nat.le_add_left 1 i, clamp_score_nonneg _, clamp_score_le_hundred _⟩

theorem c8_amended_timeline_witness :
    (build_engagement_timeline [] 120 50).length =
      (if (0 : ℤ) < 120 then (⌈((120 : ℤ) : ℚ) / 60⌉).toNat else 1) :=
  (c8_amended_timeline [] 120 50 (by decide) (by decide)).1

/-! ## Lemmas on the report table -/

lemma reports_for_cons (uid : Nat) (a : ReportRow) (l : List ReportRow) :
    reports_for uid (a :: l) =
      (if a.video_upload_id = uid then 1 else 0) + reports_for uid l := by
  simp only [reports_for, List.filter_cons]
  by_cases h : a.video_upload_id = uid
  · rw [if_pos (by simp [h]), if_pos h]
    simp only [List.length_cons]
    omega
  · rw [if_neg (by simp [h]), if_neg h]
    omega

lemma reports_for_append (uid : Nat) (l1 l2 : List ReportRow) :
    reports_for uid (l1 ++ l2) = reports_for uid l1 + reports_for uid l2 := by
  simp [reports_for, List.filter_append]

lemma reports_for_erase_of_mem (uid : Nat) (r : ReportRow)
    (hr : r.video_upload_id = uid) :
    ∀ db : List ReportRow, r ∈ db →
      reports_for uid (db.erase r) + 1 = reports_for uid db := by
  intro db
  induction db with
  | nil => intro h; cases h
  | cons a tl ih =>
    intro hmem
    rw [List.erase_cons]
    by_cases hab : a = r
    · subst hab
      rw [if_pos (by simp)]
      rw [reports_for_cons, if_pos hr]
      omega
    · rw [if_neg (by simp [hab])]
      have hmem' : r ∈ tl := by
        rcases List.mem_cons.mp hmem with h | h
        · exact absurd h.symm hab
        · exact h
      rw [reports_for_cons, reports_for_cons, ← ih hmem']
      omega

lemma reports_for_eq_zero_of_find?_none (uid : Nat) (db : List ReportRow)
    (hf : db.find? (fun r => r.video_upload_id = uid) = none) :
    reports_for uid db = 0 := by
  have hall := List.find?_eq_none.mp hf
  simp only [reports_for, List.length_eq_zero]
  rw [List.filter_eq_nil]
  intro a ha
  exact hall a ha

lemma reports_for_eq_one_of_find?_some (uid : Nat) (db : List ReportRow)
    (ex : ReportRow) (hf : db.find? (fun r => r.video_upload_id = uid) = some ex)
    (hcount : reports_for uid db ≤ 1) : reports_for uid db = 1 := by
  have hmem : ex ∈ db := List.mem_of_find?_eq_some hf
  have hp : ex.video_upload_id = uid := by
    have := List.find?_some hf
    simpa using this
  have h1 : ex ∈ db.filter (fun r => r.video_upload_id = uid) :=
    List.mem_filter.mpr ⟨hmem, by simp [hp]⟩
  have h2 : 0 < reports_for uid db := List.length_pos_of_mem h1
  omega

lemma ensure_of_find?_none (uid fresh : Nat) (force : Bool)
    (db : List ReportRow)
    (hf : db.find? (fun r => r.video_upload_id = uid) = none) :
    ensure_local_engagement_for_upload uid force db fresh =
      (⟨uid, fresh⟩, db ++ [⟨uid, fresh⟩]) := by
  unfold ensure_local_engagement_for_upload
  rw [hf]

lemma ensure_of_find?_some_keep (uid fresh : Nat) (db : List ReportRow)
    (ex : ReportRow)
    (hf : db.find? (fun r => r.video_upload_id = uid) = some ex) :
    ensure_local_engagement_for_upload uid false db fresh = (ex, db) := by
  unfold ensure_local_engagement_for_upload
  rw [hf]
  simp

lemma ensure_of_find?_some_force (uid fresh : Nat) (db : List ReportRow)
    (ex : ReportRow)
    (hf : db.find? (fun r => r.video_upload_id = uid) = some ex) :
    ensure_local_engagement_for_upload uid true db fresh =
      (⟨uid, fresh⟩, db.erase ex ++ [⟨uid, fresh⟩]) := by
  unfold ensure_local_engagement_for_upload
  rw [hf]
  simp

/-- C9: report lifecycle of `ensure_local_engagement_for_upload` under
the documented at-most-one-live-report invariant: with
`force_recompute = false` and an existing report, the existing report is
returned and the table is unchanged (no new report is created); with
`force_recompute = true` the prior report (if any) is deleted before the
fresh one is inserted; after either call exactly one report exists for
the upload. -/
theorem c9_recompute_lifecycle (uid fresh : Nat) (db : List ReportRow)
    (hcount : reports_for uid db ≤ 1) :
    (∀ r, db.find? (fun x => x.video_upload_id = uid) = some r →
      ensure_local_engagement_for_upload uid false db fresh = (r, db)) ∧
    reports_for uid (ensure_local_engagement_for_upload uid true db fresh).2 = 1 ∧
    ((db.find? (fun x => x.video_upload_id = uid)).isSome →
      reports_for uid (ensure_local_engagement_for_upload uid false db fresh).2 = 1) := by
  refine ⟨?_, ?_, ?_⟩
  · intro r hr
    exact ensure_of_find?_some_keep uid fresh db r hr
  · cases hf : db.find? (fun x => x.video_upload_id = uid) with
    | none =>
      have h0 := reports_for_eq_zero_of_find?_none uid db hf
      rw [ensure_of_find?_none uid fresh true db hf]
      rw [reports_for_append, h0, reports_for_cons]
      simp [reports_for]
    | some ex =>
      have hp : ex.video_upload_id = uid := by
        have := List.find?_some hf
        simpa using this
      have h1 := reports_for_eq_one_of_find?_some uid db ex hf hcount
      have herase := reports_for_erase_of_mem uid ex hp db
        (List.mem_of_find?_eq_some hf)
      rw [ensure_of_find?_some_force uid fresh db ex hf]
      rw [reports_for_append]
      have hnew : reports_for uid [(⟨uid, fresh⟩ : ReportRow)] = 1 := by
        simp [reports_for]
      rw [hnew]
      omega
  · intro hsome
    obtain ⟨r, hr⟩ := Option.isSome_iff_exists.mp hsome
    have h1 := reports_for_eq_one_of_find?_some uid db r hr hcount
    rw [ensure_of_find?_some_keep uid fresh db r hr]
    exact h1

theorem c9_recompute_lifecycle_witness :
    ensure_local_engagement_for_upload 7 false [⟨7, 0⟩] 1 = (⟨7, 0⟩, [⟨7, 0⟩]) ∧
    reports_for 7 (ensure_local_engagement_for_upload 7 true [⟨7, 0⟩] 1).2 = 1 ∧
    reports_for 7 (ensure_local_engagement_for_upload 7 false [⟨7, 0⟩] 1).2 = 1 :=
  ⟨(c9_recompute_lifecycle 7 1 [⟨7, 0⟩] (by decide)).1 ⟨7, 0⟩ (by decide),
   (c9_recompute_lifecycle 7 1 [⟨7, 0⟩] (by decide)).2.1,
   (c9_recompute_lifecycle 7 1 [⟨7, 0⟩] (by decide)).2.2 (by decide)⟩
